import Mathlib

/-!
Verification of the connection pool, connection-identity hashing, and the
file-operation layer of the terraform-provider-remote source tree.  Go maps,
SSH sessions and transfer protocols are modelled as explicit state and
environment records; machine integers are modelled as `Int`/`Nat`.
-/

namespace RemoteProvider

/-!
Connection pool / admission controller (provider.go)

`apiClient` keeps `remoteClients : map[string]*RemoteClient` and
`activeSessions : map[string]int` guarded by one mutex.  Every pool claim
speaks about a single connection identity, so the pool state is projected to
that identity: `client` is the entry of `remoteClients` for the identity
(clients are identified by the generation number handed out by the builder),
`sessions` is the entry of `activeSessions` (a missing Go map key reads as
`0`, hence a plain `Int` starting at `0` — deleting the `remoteClients` entry
leaves the `activeSessions` value in place, exactly as in the Go code),
`closed` records every `client.Close()` call in order, and `crashed` records
a `Close()` on a `nil` client (which in Go would panic).
-/

structure PoolState where
  client : Option Nat
  sessions : Int
  nextGen : Nat
  closed : List Nat
  crashed : Bool
  deriving DecidableEq

/-- Result of one `getRemoteClient` attempt.  The busy-wait iteration of the
`for` loop (entry present and `activeSessions >= maxSessions`) is modelled as
`blocked`: that acquisition does not complete and the state is unchanged; the
caller retries with a later event. -/
inductive AcqResult where
  | got (g : Nat)
  | blocked
  | failed
  deriving DecidableEq

/-- Model of `getRemoteClient` (provider.go): under the pool mutex, if an entry for the
identity exists it is reused after incrementing `activeSessions`, but only
when `activeSessions < maxSessions` (otherwise the caller unlocks and
retries); if no entry exists, `remoteClientFromResourceData` runs (its
outcome is the `builderOk` argument), a builder failure is returned without
touching either map, and on success the client is stored and
`activeSessions` is assigned `1`. -/
def getRemoteClient (maxSessions : Int) (s : PoolState) (builderOk : Bool) :
    AcqResult × PoolState :=
  match s.client with
  | some g =>
    if s.sessions ≥ maxSessions then
      (.blocked, s)
    else
      (.got g, { s with sessions := s.sessions + 1 })
  | none =>
    if builderOk then
      (.got s.nextGen,
       { s with client := some s.nextGen, sessions := 1, nextGen := s.nextGen + 1 })
    else
      (.failed, s)

/-- Model of `closeRemoteClient` (provider.go): decrement `activeSessions`; when the
decremented value is `0`, look the client up, delete it from `remoteClients`
and call `Close()` on it (recorded in `closed`; were the entry missing, the
Go code would call `Close` on a `nil` pointer, recorded as `crashed`). -/
def closeRemoteClient (s : PoolState) : PoolState :=
  let n := s.sessions - 1
  if n = 0 then
    match s.client with
    | some g => { s with sessions := n, client := none, closed := s.closed ++ [g] }
    | none => { s with sessions := n, crashed := true }
  else
    { s with sessions := n }

inductive PoolEvent where
  | acquire (builderOk : Bool)
  | release
  deriving DecidableEq

def step (maxSessions : Int) (s : PoolState) : PoolEvent → PoolState
  | .acquire ok => (getRemoteClient maxSessions s ok).2
  | .release => closeRemoteClient s

def initPool : PoolState := ⟨none, 0, 0, [], false⟩

def runPool (maxSessions : Int) (es : List PoolEvent) : PoolState :=
  es.foldl (step maxSessions) initPool

/-- A trace is release-safe from `s` when every `release` happens while the
identity holds at least one active session, i.e. each release matches an
earlier completed acquire. -/
def releaseSafeFrom (maxSessions : Int) (s : PoolState) : List PoolEvent → Bool
  | [] => true
  | e :: es =>
    (match e with
     | .release => decide (1 ≤ s.sessions)
     | .acquire _ => true)
    && releaseSafeFrom maxSessions (step maxSessions s e) es

def releaseSafe (maxSessions : Int) (es : List PoolEvent) : Bool :=
  releaseSafeFrom maxSessions initPool es

/-- Session-count invariant of the admission controller (needs release-safe
traces and a positive ceiling). -/
def countInv (maxSessions : Int) (s : PoolState) : Prop :=
  0 ≤ s.sessions ∧ s.sessions ≤ maxSessions ∧
  (s.client = none → s.sessions = 0) ∧
  (∀ g, s.client = some g → 1 ≤ s.sessions)

/-- Generation bookkeeping invariant of the pool: closed clients are closed at
most once, the live client has never been closed, and an identity with no
client entry has a non-positive session count.  Holds on every trace, with no
well-formedness assumption. -/
def poolInv (s : PoolState) : Prop :=
  s.closed.Nodup ∧ (∀ g ∈ s.closed, g < s.nextGen) ∧
  (∀ g, s.client = some g → g ∉ s.closed ∧ g < s.nextGen) ∧
  (s.client = none → s.sessions ≤ 0)

/-!
Transport client and file operations (remote_client.go)

A connected `RemoteClient` is modelled by the environment it runs against:
the outcome of creating a session (`NewSession`) and a stdin pipe
(`StdinPipe`), the outcome of executing a given command in a fresh session
(`exec`, shared by `Session.Run` and `Session.Output`, which run the command
once per call), and the SCP / SFTP primitives.
-/

/-- Outcome of executing one command in an SSH session: success with the
captured stdout, or failure carrying the underlying transport/exit error text
and the captured standard-error stream. -/
inductive CmdOutcome where
  | ok (stdout : String)
  | fail (err : String) (stderr : String)
  deriving DecidableEq

/-- Go `error` values returned by the file-operation layer: either the
structured `provider.Error` (command text, underlying error, captured
stderr) produced by the `run` helper, or an unwrapped error (`ssh` session
errors, raw `Session.Run`/`Session.Output` errors, SCP/SFTP errors,
`fmt.Errorf` strings). -/
inductive GoError where
  | cmdError (cmd : String) (err : String) (stderr : String)
  | plain (msg : String)
  deriving DecidableEq

/-- Whether an error is the structured `provider.Error`, the only structured failure constructor. -/
def isStructuredError : GoError → Bool
  | .cmdError _ _ _ => true
  | .plain _ => false

structure Remote where
  newSessionErr : Option String
  stdinPipeErr : Option String
  exec : String → CmdOutcome
  scpNewErr : Option String
  scpCopy : String → String → String → Option String
  sftpNewErr : Option String
  sftpOpenErr : String → Option String
  sftpRead : String → Except String String
  sftpRemove : String → Option String

/-- The `run` helper (remote_client.go): execute `cmd` with stderr captured in a buffer;
a failure is wrapped in the structured `Error{cmd, err, stderr}`. -/
def run (r : Remote) (cmd : String) : Option GoError :=
  match r.exec cmd with
  | .ok _ => none
  | .fail e stderr => some (.cmdError cmd e stderr)

/-- Direct `Session.Output` (`ReadFileShell`, `ReadFilePermissions`,
`StatFile`): captured stdout, or the raw unwrapped error. -/
def output (r : Remote) (cmd : String) : Except GoError String :=
  match r.exec cmd with
  | .ok out => .ok out
  | .fail e _ => .error (.plain e)

/-- Direct `Session.Run` (the confirming probe of `FileExists`):
`nil` on success, the raw unwrapped error otherwise. -/
def runRaw (r : Remote) (cmd : String) : Option GoError :=
  match r.exec cmd with
  | .ok _ => none
  | .fail e _ => some (.plain e)

def WriteFileSCP (r : Remote) (content path permissions : String) :
    Option GoError :=
  match r.scpNewErr with
  | some e => some (.plain e)
  | none => (r.scpCopy content path permissions).map .plain

set_option linter.unusedVariables false in
def WriteFileShell (r : Remote) (content path : String) : Option GoError :=
  match r.newSessionErr with
  | some e => some (.plain e)
  | none =>
    match r.stdinPipeErr with
    | some e => some (.plain e)
    | none => run r ("cat /dev/stdin | sudo tee " ++ path)

def WriteFile (r : Remote) (content path permissions : String) (useSudo : Bool) :
    Option GoError :=
  if useSudo then
    WriteFileShell r content path
  else
    WriteFileSCP r content path permissions

def ChmodFile (r : Remote) (path permissions : String) (useSudo : Bool) :
    Option GoError :=
  match r.newSessionErr with
  | some e => some (.plain e)
  | none =>
    let cmd := "chmod " ++ permissions ++ " " ++ path
    let cmd := if useSudo then "sudo " ++ cmd else cmd
    run r cmd

def ChgrpFile (r : Remote) (path group : String) (useSudo : Bool) :
    Option GoError :=
  match r.newSessionErr with
  | some e => some (.plain e)
  | none =>
    let cmd := "chgrp " ++ group ++ " " ++ path
    let cmd := if useSudo then "sudo " ++ cmd else cmd
    run r cmd

def ChownFile (r : Remote) (path owner : String) (useSudo : Bool) :
    Option GoError :=
  match r.newSessionErr with
  | some e => some (.plain e)
  | none =>
    let cmd := "chown " ++ owner ++ " " ++ path
    let cmd := if useSudo then "sudo " ++ cmd else cmd
    run r cmd

def FileExists (r : Remote) (path : String) (useSudo : Bool) :
    Bool × Option GoError :=
  match r.newSessionErr with
  | some e => (false, some (.plain e))
  | none =>
    let cmd := "test -f " ++ path
    let cmd := if useSudo then "sudo " ++ cmd else cmd
    match run r cmd with
    | none => (true, none)
    | some _ =>
      match r.newSessionErr with
      | some e => (false, some (.plain e))
      | none =>
        let cmd2 := "test ! -f " ++ path
        let cmd2 := if useSudo then "sudo " ++ cmd2 else cmd2
        (false, runRaw r cmd2)

def ReadFileSFTP (r : Remote) (path : String) : Except GoError String :=
  match r.sftpNewErr with
  | some e => .error (.plain e)
  | none =>
    match r.sftpOpenErr path with
    | some e => .error (.plain e)
    | none =>
      match r.sftpRead path with
      | .error e => .error (.plain e)
      | .ok content => .ok content

def ReadFileShell (r : Remote) (path : String) : Except GoError String :=
  match r.newSessionErr with
  | some e => .error (.plain e)
  | none => output r ("sudo cat " ++ path)

def ReadFile (r : Remote) (path : String) (useSudo : Bool) :
    Except GoError String :=
  if useSudo then ReadFileShell r path else ReadFileSFTP r path

/-- Model of `strings.ReplaceAll(s, "\n", "")`: with a single-character pattern this
removes every newline character, modelled as a character filter. -/
def replaceAllNewline (s : String) : String :=
  ⟨s.data.filter (fun c => c != '\n')⟩

def ReadFilePermissions (r : Remote) (path : String) (useSudo : Bool) :
    Except GoError String :=
  match r.newSessionErr with
  | some e => .error (.plain e)
  | none =>
    let cmd := "stat -c %a " ++ path
    let cmd := if useSudo then "sudo " ++ cmd else cmd
    match output r cmd with
    | .error e => .error e
    | .ok out =>
      let permissions := replaceAllNewline out
      let permissions :=
        if 0 < permissions.length ∧ permissions.length < 4 then
          "0" ++ permissions
        else
          permissions
      .ok permissions

def StatFile (r : Remote) (path char : String) (useSudo : Bool) :
    Except GoError String :=
  match r.newSessionErr with
  | some e => .error (.plain e)
  | none =>
    let cmd := "stat -c %" ++ char ++ " " ++ path
    let cmd := if useSudo then "sudo " ++ cmd else cmd
    match output r cmd with
    | .error e => .error e
    | .ok out => .ok (replaceAllNewline out)

def ReadFileOwner (r : Remote) (path : String) (useSudo : Bool) :
    Except GoError String :=
  StatFile r path "u" useSudo

def ReadFileGroup (r : Remote) (path : String) (useSudo : Bool) :
    Except GoError String :=
  StatFile r path "g" useSudo

def ReadFileOwnerName (r : Remote) (path : String) (useSudo : Bool) :
    Except GoError String :=
  StatFile r path "U" useSudo

def ReadFileGroupName (r : Remote) (path : String) (useSudo : Bool) :
    Except GoError String :=
  StatFile r path "G" useSudo

def DeleteFileSFTP (r : Remote) (path : String) : Option GoError :=
  match r.sftpNewErr with
  | some e => some (.plain e)
  | none => (r.sftpRemove path).map .plain

def DeleteFileShell (r : Remote) (path : String) : Option GoError :=
  match r.newSessionErr with
  | some e => some (.plain e)
  | none => run r ("sudo rm " ++ path)

def DeleteFile (r : Remote) (path : String) (useSudo : Bool) : Option GoError :=
  if useSudo then DeleteFileShell r path else DeleteFileSFTP r path

/-- An environment in which every session-command succeeds with stdout `out`
and every transfer-protocol primitive succeeds. -/
def okRemote (out : String) : Remote :=
  { newSessionErr := none, stdinPipeErr := none,
    exec := fun _ => .ok out,
    scpNewErr := none, scpCopy := fun _ _ _ => none,
    sftpNewErr := none, sftpOpenErr := fun _ => none,
    sftpRead := fun _ => .ok "", sftpRemove := fun _ => none }

/-- An environment in which every session-command fails with error `e` and
captured stderr `st`. -/
def failRemote (e st : String) : Remote :=
  { okRemote "" with exec := fun _ => .fail e st }

/-- An environment in which `test ! -f /a` succeeds and every other command
fails: the file `/a` is absent. -/
def existsProbeRemote : Remote :=
  { okRemote "" with
    exec := fun c =>
      if c = "test ! -f /a" then .ok "" else .fail "exit status 1" "" }

/-!
Connection establishment (remote_client.go: NewRemoteClient,
NewRemoteProxyClient)

`ssh.Dial`, the tunnel dial through an established proxy client
(`proxyClient.Dial`), and the handshake over an established tunnel
(`ssh.NewClientConn` followed by the always-successful `ssh.NewClient`) are
modelled as an environment; `*ssh.Client`, `*ssh.ClientConfig` and `net.Conn`
values are identified by numbers.
-/

structure SSHWorld where
  sshDial : String → Nat → Except String Nat
  proxyClientDial : Nat → String → Except String Nat
  newClientConn : Nat → String → Nat → Except String Nat

structure RemoteClientRef where
  sshClient : Nat
  deriving DecidableEq

/-- The wrapper applied by `fmt.Errorf` in both dial stages. -/
def connectionErrMsg (e : String) : String :=
  "couldn't establish a connection to the remote server: " ++ e

/-- Model of `NewRemoteClient`: dial the target directly; wrap a dial failure. -/
def NewRemoteClient (w : SSHWorld) (host : String) (clientConfig : Nat) :
    Except GoError RemoteClientRef :=
  match w.sshDial host clientConfig with
  | .error e => .error (.plain (connectionErrMsg e))
  | .ok c => .ok ⟨c⟩

/-- Model of `NewRemoteProxyClient`: dial the proxy with the proxy configuration, then
dial the target host through the proxy client, then perform the SSH handshake
over that tunnel with the target configuration.  Both dial failures are
wrapped in the same message; a handshake failure is returned unwrapped. -/
def NewRemoteProxyClient (w : SSHWorld) (host : String) (clientConfig : Nat)
    (proxyHost : String) (proxyClientConfig : Nat) :
    Except GoError RemoteClientRef :=
  match w.sshDial proxyHost proxyClientConfig with
  | .error e => .error (.plain (connectionErrMsg e))
  | .ok proxyClient =>
    match w.proxyClientDial proxyClient host with
    | .error e => .error (.plain (connectionErrMsg e))
    | .ok conn =>
      match w.newClientConn conn host clientConfig with
      | .error e => .error (.plain e)
      | .ok ncc => .ok ⟨ncc⟩

/-- A world in which the proxy dial itself fails. -/
def proxyFailWorld : SSHWorld :=
  { sshDial := fun _ _ => .error "no route",
    proxyClientDial := fun _ _ => .ok 0,
    newClientConn := fun _ _ _ => .ok 0 }

/-- A world in which the proxy dial succeeds but the tunnel to the target
host cannot be opened. -/
def tunnelFailWorld : SSHWorld :=
  { sshDial := fun _ _ => .ok 0,
    proxyClientDial := fun _ _ => .error "no route",
    newClientConn := fun _ _ _ => .ok 0 }

/-!
Connection identity hashing (provider.go: resourceConnectionHash)

`resourceConnectionHash` joins 14 strings with the separator `::`:
host, user, `strconv.Itoa(port)`, password, private_key, private_key_path,
`strconv.FormatBool(agent)`, and the proxy host, user, port, password,
private_key, private_key_path and agent — the last seven through the
`resource*WithDefault` helpers, whose `GetOk` reports `ok = false` on the
zero value (empty string, `0`, `false`).  Neither `private_key_env_var` nor
`proxy_conn.0.private_key_env_var` appears in the list.  Connection values
are modelled with the Go zero value standing for an unset field.
-/

structure ConnData where
  host : String
  user : String
  port : Nat
  password : String
  private_key : String
  private_key_path : String
  private_key_env_var : String
  agent : Bool
  proxy_host : String
  proxy_user : String
  proxy_port : Nat
  proxy_password : String
  proxy_private_key : String
  proxy_private_key_path : String
  proxy_private_key_env_var : String
  proxy_agent : Bool
  deriving DecidableEq

/-- Decimal digits of `n`, least significant first; the fuel argument (`n`
itself suffices) makes the recursion structural. -/
def toDigitsRevGo : Nat → Nat → List Nat
  | 0, n => [n % 10]
  | fuel + 1, n => if n < 10 then [n] else (n % 10) :: toDigitsRevGo fuel (n / 10)

def toDigitsRev (n : Nat) : List Nat := toDigitsRevGo n n

def ofDigitsRev : List Nat → Nat
  | [] => 0
  | d :: ds => d + 10 * ofDigitsRev ds

def digitChar : Nat → Char
  | 0 => '0'
  | 1 => '1'
  | 2 => '2'
  | 3 => '3'
  | 4 => '4'
  | 5 => '5'
  | 6 => '6'
  | 7 => '7'
  | 8 => '8'
  | _ => '9'

/-- Model of `strconv.Itoa` for the non-negative values that reach it (ports). -/
def itoa (n : Nat) : String :=
  ⟨(toDigitsRev n).reverse.map digitChar⟩

/-- Model of `strconv.FormatBool`. -/
def formatBool (b : Bool) : String :=
  if b then "true" else "false"

/-- Model of `resourceStringWithDefault`: `GetOk` is `ok` iff the string is non-zero
(non-empty). -/
def resourceStringWithDefault (s defaultValue : String) : String :=
  if s ≠ "" then s else defaultValue

/-- Model of `resourceIntWithDefault`: `GetOk` is `ok` iff the int is non-zero. -/
def resourceIntWithDefault (n : Nat) (defaultValue : String) : String :=
  if n ≠ 0 then itoa n else defaultValue

/-- Model of `resourceBoolWithDefault`: `GetOk` is `ok` iff the bool is `true`. -/
def resourceBoolWithDefault (b : Bool) (defaultValue : String) : String :=
  if b then formatBool b else defaultValue

/-- Model of `strings.Join(elements, "::")`. -/
def joinSep : List String → String
  | [] => ""
  | [s] => s
  | s :: rest => s ++ "::" ++ joinSep rest

def resourceConnectionHash (d : ConnData) : String :=
  joinSep [d.host, d.user, itoa d.port,
    resourceStringWithDefault d.password "",
    resourceStringWithDefault d.private_key "",
    resourceStringWithDefault d.private_key_path "",
    formatBool d.agent,
    resourceStringWithDefault d.proxy_host "",
    resourceStringWithDefault d.proxy_user "",
    resourceIntWithDefault d.proxy_port "",
    resourceStringWithDefault d.proxy_password "",
    resourceStringWithDefault d.proxy_private_key "",
    resourceStringWithDefault d.proxy_private_key_path "",
    resourceBoolWithDefault d.proxy_agent ""]

/-- A string with no colon character; the separator `::` then cannot occur
inside a joined element. -/
def noColon (s : String) : Prop := ∀ c ∈ s.data, c ≠ ':'

instance noColonDecidable (s : String) : Decidable (noColon s) :=
  inferInstanceAs (Decidable (∀ c ∈ s.data, c ≠ ':'))

def cfgEnvA : ConnData :=
  { host := "remotehost", user := "root", port := 22, password := "password",
    private_key := "", private_key_path := "", private_key_env_var := "KEY_A",
    agent := false, proxy_host := "", proxy_user := "", proxy_port := 0,
    proxy_password := "", proxy_private_key := "",
    proxy_private_key_path := "", proxy_private_key_env_var := "",
    proxy_agent := false }

def cfgEnvB : ConnData := { cfgEnvA with private_key_env_var := "KEY_B" }

def cfgColl1 : ConnData :=
  { cfgEnvA with host := "a::b", user := "c", private_key_env_var := "" }

def cfgColl2 : ConnData :=
  { cfgEnvA with host := "a", user := "b::c", private_key_env_var := "" }

theorem countInv_step (maxSessions : Int) (hmax : 1 ≤ maxSessions)
    (s : PoolState) (e : PoolEvent) (h : countInv maxSessions s)
    (hrel : e = .release → 1 ≤ s.sessions) :
    countInv maxSessions (step maxSessions s e) := by
  obtain ⟨h0, h1, h2, h3⟩ := h
  cases e with
  | acquire ok =>
    cases hc : s.client with
    | some g =>
      have := h3 g hc
      by_cases hge : s.sessions ≥ maxSessions
      · simpa [step, getRemoteClient, hc, hge] using ⟨h0, h1, h2, h3⟩
      · refine ⟨?_, ?_, ?_, ?_⟩
        · simp [step, getRemoteClient, hc, hge]; omega
        · simp [step, getRemoteClient, hc, hge]; omega
        · simp [step, getRemoteClient, hc, hge]
        · intro g' hg'
          simp [step, getRemoteClient, hc, hge]
          omega
    | none =>
      cases ok with
      | true =>
        refine ⟨?_, ?_, ?_, ?_⟩ <;> (simp [step, getRemoteClient, hc]; try omega)
      | false =>
        simpa [step, getRemoteClient, hc] using ⟨h0, h1, h2, h3⟩
  | release =>
    have hs : 1 ≤ s.sessions := hrel rfl
    have hcl : ∃ g, s.client = some g := by
      cases hc : s.client with
      | none => exact absurd (h2 hc) (by omega)
      | some g => exact ⟨g, rfl⟩
    obtain ⟨g, hg⟩ := hcl
    by_cases hz : s.sessions - 1 = 0
    · refine ⟨?_, ?_, ?_, ?_⟩ <;>
        (simp [step, closeRemoteClient, hz, hg]; try omega)
    · refine ⟨by simp [step, closeRemoteClient, hz]; omega,
        by simp [step, closeRemoteClient, hz]; omega, ?_, ?_⟩
      · intro hnone
        simp only [step, closeRemoteClient, if_neg hz] at hnone
        exact absurd (h2 hnone) (by omega)
      · intro g' _
        simp only [step, closeRemoteClient, if_neg hz]
        omega

theorem countInv_foldl (maxSessions : Int) (hmax : 1 ≤ maxSessions)
    (es : List PoolEvent) (s : PoolState) (h : countInv maxSessions s)
    (hsafe : releaseSafeFrom maxSessions s es = true) :
    countInv maxSessions (es.foldl (step maxSessions) s) := by
  induction es generalizing s with
  | nil => simpa using h
  | cons e es ih =>
    simp only [releaseSafeFrom, Bool.and_eq_true] at hsafe
    refine ih (step maxSessions s e) (countInv_step maxSessions hmax s e h ?_) hsafe.2
    intro he
    subst he
    simpa using hsafe.1

/-- C1 (amended): For any sequence of `getRemoteClient` / `closeRemoteClient`
calls on one connection identity in which every release is performed while the
identity holds at least one active session, and with `max_sessions ≥ 1`, the
active-session count for that identity never exceeds `max_sessions` and never
goes negative. -/
theorem activeSessions_bounded (maxSessions : Int) (es : List PoolEvent)
    (hmax : 1 ≤ maxSessions) (hsafe : releaseSafe maxSessions es = true) :
    0 ≤ (runPool maxSessions es).sessions ∧
    (runPool maxSessions es).sessions ≤ maxSessions := by
  have h := countInv_foldl maxSessions hmax es initPool
    (by refine ⟨by simp [initPool], by simp [initPool]; omega, by simp [initPool], ?_⟩
        intro g hg
        simp [initPool] at hg)
    hsafe
  exact ⟨h.1, h.2.1⟩

theorem activeSessions_bounded_witness :
    (1 : Int) ≤ 2 ∧
    releaseSafe 2 [.acquire true, .acquire true, .release] = true ∧
    (0 ≤ (runPool 2 [.acquire true, .acquire true, .release]).sessions ∧
     (runPool 2 [.acquire true, .acquire true, .release]).sessions ≤ 2) :=
  ⟨by decide, by decide,
   activeSessions_bounded 2 [.acquire true, .acquire true, .release]
     (by decide) (by decide)⟩

/-- C1 counterexample: As literally stated — over *any* sequence of acquire
and release calls — the claim is false: a release with no matching acquire
drives the count to `-1`, and with `max_sessions = 0` a first acquisition
still sets the count to `1`, exceeding the ceiling. -/
theorem activeSessions_unbounded_counterexample :
    (runPool 3 [.release]).sessions < 0 ∧
    (runPool 0 [.acquire true]).sessions > 0 := by
  decide

/-- C9: If building a new connection fails during acquisition for an
identity with no existing entry, `getRemoteClient` reports the failure and
the pool state — the client entry and the active-session count — is exactly
unchanged. -/
theorem acquire_failure_leaves_pool_unchanged (maxSessions : Int)
    (s : PoolState) (h : s.client = none) :
    getRemoteClient maxSessions s false = (.failed, s) := by
  simp [getRemoteClient, h]

theorem acquire_failure_leaves_pool_unchanged_witness :
    initPool.client = none ∧
    getRemoteClient 3 initPool false = (.failed, initPool) :=
  ⟨by decide, acquire_failure_leaves_pool_unchanged 3 initPool (by decide)⟩

theorem getRemoteClient_some_full (maxSessions : Int) (s : PoolState)
    (ok : Bool) (g : Nat) (hc : s.client = some g)
    (hge : s.sessions ≥ maxSessions) :
    getRemoteClient maxSessions s ok = (.blocked, s) := by
  simp [getRemoteClient, hc, hge]

theorem getRemoteClient_some_headroom (maxSessions : Int) (s : PoolState)
    (ok : Bool) (g : Nat) (hc : s.client = some g)
    (hge : ¬ s.sessions ≥ maxSessions) :
    getRemoteClient maxSessions s ok =
      (.got g, { s with sessions := s.sessions + 1 }) := by
  simp [getRemoteClient, hc, hge]

theorem getRemoteClient_none_ok (maxSessions : Int) (s : PoolState)
    (hc : s.client = none) :
    getRemoteClient maxSessions s true =
      (.got s.nextGen,
       { s with client := some s.nextGen, sessions := 1,
                nextGen := s.nextGen + 1 }) := by
  simp [getRemoteClient, hc]

theorem getRemoteClient_none_fail (maxSessions : Int) (s : PoolState)
    (hc : s.client = none) :
    getRemoteClient maxSessions s false = (.failed, s) := by
  simp [getRemoteClient, hc]

theorem closeRemoteClient_some_zero (s : PoolState) (g : Nat)
    (hc : s.client = some g) (hz : s.sessions - 1 = 0) :
    closeRemoteClient s =
      { s with sessions := 0, client := none, closed := s.closed ++ [g] } := by
  simp [closeRemoteClient, hc, hz]

theorem closeRemoteClient_none_zero (s : PoolState)
    (hc : s.client = none) (hz : s.sessions - 1 = 0) :
    closeRemoteClient s = { s with sessions := 0, crashed := true } := by
  simp [closeRemoteClient, hc, hz]

theorem closeRemoteClient_nonzero (s : PoolState)
    (hz : ¬ s.sessions - 1 = 0) :
    closeRemoteClient s = { s with sessions := s.sessions - 1 } := by
  simp [closeRemoteClient, hz]

theorem poolInv_step (maxSessions : Int) (s : PoolState) (e : PoolEvent)
    (h : poolInv s) : poolInv (step maxSessions s e) := by
  obtain ⟨h1, h2, h3, h4⟩ := h
  cases e with
  | acquire ok =>
    show poolInv (getRemoteClient maxSessions s ok).2
    cases hc : s.client with
    | some g =>
      by_cases hge : s.sessions ≥ maxSessions
      · rw [getRemoteClient_some_full maxSessions s ok g hc hge]
        exact ⟨h1, h2, h3, h4⟩
      · rw [getRemoteClient_some_headroom maxSessions s ok g hc hge]
        refine ⟨h1, h2, ?_, ?_⟩
        · intro g' hg'
          exact h3 g' hg'
        · intro hnone
          have hn2 : s.client = none := hnone
          rw [hc] at hn2
          exact Option.noConfusion hn2
    | none =>
      cases ok with
      | true =>
        rw [getRemoteClient_none_ok maxSessions s hc]
        refine ⟨h1, ?_, ?_, ?_⟩
        · intro g' hg'
          exact Nat.lt_succ_of_lt (h2 g' hg')
        · intro g' hg'
          have hg2 : some s.nextGen = some g' := hg'
          cases hg2
          refine ⟨fun hmem => absurd (h2 _ hmem) (by omega), by simp⟩
        · intro hnone
          exact Option.noConfusion hnone
      | false =>
        rw [getRemoteClient_none_fail maxSessions s hc]
        exact ⟨h1, h2, h3, h4⟩
  | release =>
    show poolInv (closeRemoteClient s)
    by_cases hz : s.sessions - 1 = 0
    · cases hc : s.client with
      | some g =>
        obtain ⟨hgmem, hglt⟩ := h3 g hc
        rw [closeRemoteClient_some_zero s g hc hz]
        refine ⟨?_, ?_, ?_, ?_⟩
        · show (s.closed ++ [g]).Nodup
          simp [List.nodup_append, h1, hgmem]
        · intro g' hg'
          simp only [List.mem_append, List.mem_singleton] at hg'
          rcases hg' with hg' | hg'
          · exact h2 g' hg'
          · simpa [hg'] using hglt
        · intro g' hg'
          exact Option.noConfusion hg'
        · intro _
          show (0 : Int) ≤ 0
          omega
      | none =>
        rw [closeRemoteClient_none_zero s hc hz]
        refine ⟨h1, h2, ?_, ?_⟩
        · intro g' hg'
          have hg2 : s.client = some g' := hg'
          rw [hc] at hg2
          exact Option.noConfusion hg2
        · intro _
          show (0 : Int) ≤ 0
          omega
    · rw [closeRemoteClient_nonzero s hz]
      refine ⟨h1, h2, ?_, ?_⟩
      · intro g' hg'
        exact h3 g' hg'
      · intro hnone
        have := h4 hnone
        show s.sessions - 1 ≤ 0
        omega

theorem poolInv_foldl (maxSessions : Int) (es : List PoolEvent) (s : PoolState)
    (h : poolInv s) : poolInv (es.foldl (step maxSessions) s) := by
  induction es generalizing s with
  | nil => simpa using h
  | cons e es ih => exact ih _ (poolInv_step maxSessions s e h)

theorem poolInv_init : poolInv initPool := by
  refine ⟨by simp [initPool], by simp [initPool], by simp [initPool],
    by simp [initPool]⟩

theorem closed_prefix_step (maxSessions : Int) (s : PoolState) (e : PoolEvent) :
    s.closed <+: (step maxSessions s e).closed := by
  cases e with
  | acquire ok =>
    show s.closed <+: (getRemoteClient maxSessions s ok).2.closed
    cases hc : s.client with
    | some g =>
      by_cases hge : s.sessions ≥ maxSessions
      · rw [getRemoteClient_some_full maxSessions s ok g hc hge]
      · rw [getRemoteClient_some_headroom maxSessions s ok g hc hge]
    | none =>
      cases ok with
      | true => rw [getRemoteClient_none_ok maxSessions s hc]
      | false => rw [getRemoteClient_none_fail maxSessions s hc]
  | release =>
    show s.closed <+: (closeRemoteClient s).closed
    by_cases hz : s.sessions - 1 = 0
    · cases hc : s.client with
      | some g =>
        rw [closeRemoteClient_some_zero s g hc hz]
        exact List.prefix_append s.closed [g]
      | none => rw [closeRemoteClient_none_zero s hc hz]
    · rw [closeRemoteClient_nonzero s hz]

theorem closed_prefix_foldl (maxSessions : Int) (es : List PoolEvent)
    (s : PoolState) : s.closed <+: (es.foldl (step maxSessions) s).closed := by
  induction es generalizing s with
  | nil => simp
  | cons e es ih =>
    exact (closed_prefix_step maxSessions s e).trans (ih (step maxSessions s e))

/-- C3: After at least one acquisition for an identity (a session count of
`1` forces a live entry), a release brings the count to `0`: the entry is
removed from the pool map, its client is closed exactly once — now and in
every continuation of the trace — and the next successful acquisition creates
a fresh entry via the connection builder, with a client distinct from the
closed one. -/
theorem release_to_zero_closes_once_then_fresh (maxSessions : Int)
    (es : List PoolEvent) (h1 : (runPool maxSessions es).sessions = 1) :
    ∃ g, (runPool maxSessions es).client = some g ∧
      (closeRemoteClient (runPool maxSessions es)).client = none ∧
      (closeRemoteClient (runPool maxSessions es)).closed.count g = 1 ∧
      (∀ es2 : List PoolEvent,
        (es2.foldl (step maxSessions)
          (closeRemoteClient (runPool maxSessions es))).closed.count g = 1) ∧
      (getRemoteClient maxSessions (closeRemoteClient (runPool maxSessions es))
          true).1 = .got (closeRemoteClient (runPool maxSessions es)).nextGen ∧
      (getRemoteClient maxSessions (closeRemoteClient (runPool maxSessions es))
          true).2.client =
        some (closeRemoteClient (runPool maxSessions es)).nextGen ∧
      (closeRemoteClient (runPool maxSessions es)).nextGen ≠ g := by
  have hinv : poolInv (runPool maxSessions es) :=
    poolInv_foldl maxSessions es initPool poolInv_init
  obtain ⟨hnodup, hbound, hlive, hnone⟩ := hinv
  obtain ⟨g, hg⟩ : ∃ g, (runPool maxSessions es).client = some g := by
    cases hc : (runPool maxSessions es).client with
    | none => exact absurd (hnone hc) (by omega)
    | some g => exact ⟨g, rfl⟩
  obtain ⟨hgmem, hglt⟩ := hlive g hg
  have hz : (runPool maxSessions es).sessions - 1 = 0 := by omega
  have hclose := closeRemoteClient_some_zero (runPool maxSessions es) g hg hz
  have hcl : (closeRemoteClient (runPool maxSessions es)).client = none := by
    rw [hclose]
  have hcd : (closeRemoteClient (runPool maxSessions es)).closed =
      (runPool maxSessions es).closed ++ [g] := by
    rw [hclose]
  have hng : (closeRemoteClient (runPool maxSessions es)).nextGen =
      (runPool maxSessions es).nextGen := by
    rw [hclose]
  have hcount : (closeRemoteClient (runPool maxSessions es)).closed.count g = 1 := by
    rw [hcd]
    simp [List.count_append, List.count_eq_zero.mpr hgmem]
  have hinv2 : poolInv (closeRemoteClient (runPool maxSessions es)) :=
    poolInv_step maxSessions (runPool maxSessions es) .release
      ⟨hnodup, hbound, hlive, hnone⟩
  refine ⟨g, hg, hcl, hcount, ?_, ?_, ?_, by omega⟩
  · intro es2
    have hpre : (closeRemoteClient (runPool maxSessions es)).closed <+:
        (es2.foldl (step maxSessions)
          (closeRemoteClient (runPool maxSessions es))).closed :=
      closed_prefix_foldl maxSessions es2 (closeRemoteClient (runPool maxSessions es))
    have hle : 1 ≤ (es2.foldl (step maxSessions)
        (closeRemoteClient (runPool maxSessions es))).closed.count g := by
      calc 1 = (closeRemoteClient (runPool maxSessions es)).closed.count g :=
            hcount.symm
        _ ≤ _ := hpre.sublist.count_le g
    have hinv3 : poolInv (es2.foldl (step maxSessions)
        (closeRemoteClient (runPool maxSessions es))) :=
      poolInv_foldl maxSessions es2 _ hinv2
    have hle1 := (List.nodup_iff_count_le_one.mp hinv3.1) g
    omega
  · rw [getRemoteClient_none_ok maxSessions _ hcl]
  · rw [getRemoteClient_none_ok maxSessions _ hcl]

theorem release_to_zero_closes_once_then_fresh_witness :
    (runPool 3 [.acquire true]).sessions = 1 ∧
    (∃ g, (runPool 3 [.acquire true]).client = some g ∧
      (closeRemoteClient (runPool 3 [.acquire true])).client = none ∧
      (closeRemoteClient (runPool 3 [.acquire true])).closed.count g = 1 ∧
      (∀ es2 : List PoolEvent,
        (es2.foldl (step 3)
          (closeRemoteClient (runPool 3 [.acquire true]))).closed.count g = 1) ∧
      (getRemoteClient 3 (closeRemoteClient (runPool 3 [.acquire true]))
          true).1 = .got (closeRemoteClient (runPool 3 [.acquire true])).nextGen ∧
      (getRemoteClient 3 (closeRemoteClient (runPool 3 [.acquire true]))
          true).2.client =
        some (closeRemoteClient (runPool 3 [.acquire true])).nextGen ∧
      (closeRemoteClient (runPool 3 [.acquire true])).nextGen ≠ g) :=
  ⟨by decide, release_to_zero_closes_once_then_fresh 3 [.acquire true] (by decide)⟩

/-- C4: Elevation routing.  `ChmodFile`, `ChownFile` and `ChgrpFile` always
issue a remote shell command, prefixed `sudo ` exactly when elevation is
requested; `WriteFile`, `ReadFile` and `DeleteFile` issue a shell command only
when the elevation flag is true, and otherwise use SCP for write and SFTP for
read and delete — the non-elevated paths are independent of the
shell-execution environment. -/
theorem elevation_routing (r : Remote)
    (content path permissions owner group : String) (useSudo : Bool)
    (hs : r.newSessionErr = none) (hp : r.stdinPipeErr = none) :
    ChmodFile r path permissions useSudo =
      run r (if useSudo then "sudo " ++ ("chmod " ++ permissions ++ " " ++ path)
             else "chmod " ++ permissions ++ " " ++ path) ∧
    ChownFile r path owner useSudo =
      run r (if useSudo then "sudo " ++ ("chown " ++ owner ++ " " ++ path)
             else "chown " ++ owner ++ " " ++ path) ∧
    ChgrpFile r path group useSudo =
      run r (if useSudo then "sudo " ++ ("chgrp " ++ group ++ " " ++ path)
             else "chgrp " ++ group ++ " " ++ path) ∧
    WriteFile r content path permissions true =
      run r ("cat /dev/stdin | sudo tee " ++ path) ∧
    WriteFile r content path permissions false =
      WriteFileSCP r content path permissions ∧
    ReadFile r path true = output r ("sudo cat " ++ path) ∧
    ReadFile r path false = ReadFileSFTP r path ∧
    DeleteFile r path true = run r ("sudo rm " ++ path) ∧
    DeleteFile r path false = DeleteFileSFTP r path ∧
    (∀ (exec2 : String → CmdOutcome) (nse pse : Option String),
      WriteFileSCP { r with exec := exec2, newSessionErr := nse,
                            stdinPipeErr := pse } content path permissions =
        WriteFileSCP r content path permissions) ∧
    (∀ (exec2 : String → CmdOutcome) (nse pse : Option String),
      ReadFileSFTP { r with exec := exec2, newSessionErr := nse,
                            stdinPipeErr := pse } path = ReadFileSFTP r path) ∧
    (∀ (exec2 : String → CmdOutcome) (nse pse : Option String),
      DeleteFileSFTP { r with exec := exec2, newSessionErr := nse,
                              stdinPipeErr := pse } path = DeleteFileSFTP r path) := by
  refine ⟨?_, ?_, ?_, ?_, ?_, ?_, ?_, ?_, ?_, ?_, ?_, ?_⟩
  · cases useSudo <;> simp [ChmodFile, hs]
  · cases useSudo <;> simp [ChownFile, hs]
  · cases useSudo <;> simp [ChgrpFile, hs]
  · simp [WriteFile, WriteFileShell, hs, hp]
  · simp [WriteFile]
  · simp [ReadFile, ReadFileShell, hs]
  · simp [ReadFile]
  · simp [DeleteFile, DeleteFileShell, hs]
  · simp [DeleteFile]
  · intro exec2 nse pse
    rfl
  · intro exec2 nse pse
    rfl
  · intro exec2 nse pse
    rfl

theorem elevation_routing_witness :
    (okRemote "").newSessionErr = none ∧
    ChmodFile (okRemote "") "/x" "0644" true =
      run (okRemote "") ("sudo " ++ ("chmod " ++ "0644" ++ " " ++ "/x")) ∧
    WriteFile (okRemote "") "hi" "/x" "0644" false =
      WriteFileSCP (okRemote "") "hi" "/x" "0644" :=
  ⟨rfl,
   (elevation_routing (okRemote "") "hi" "/x" "0644" "0" "0" true rfl rfl).1,
   (elevation_routing (okRemote "") "hi" "/x" "0644" "0" "0" true rfl
      rfl).2.2.2.2.1⟩

/-- C10: With the elevation flag set, `WriteFile` routes to the shell
pipeline `cat /dev/stdin | sudo tee <path>` and the `permissions` argument
has no effect on the result; only the non-elevated SCP path passes the
permissions through to `CopyFile`. -/
theorem writeFile_sudo_ignores_permissions (r : Remote)
    (content path p1 p2 : String) :
    WriteFile r content path p1 true = WriteFile r content path p2 true ∧
    WriteFile r content path p1 true = WriteFileShell r content path ∧
    (r.newSessionErr = none → r.stdinPipeErr = none →
      WriteFile r content path p1 true =
        run r ("cat /dev/stdin | sudo tee " ++ path)) ∧
    (r.scpNewErr = none →
      WriteFile r content path p1 false =
        (r.scpCopy content path p1).map GoError.plain) := by
  refine ⟨rfl, rfl, ?_, ?_⟩
  · intro hs hp
    simp [WriteFile, WriteFileShell, hs, hp]
  · intro hscp
    simp [WriteFile, WriteFileSCP, hscp]

theorem writeFile_sudo_ignores_permissions_witness :
    WriteFile (okRemote "") "hello" "/f" "0644" true =
      WriteFile (okRemote "") "hello" "/f" "0777" true ∧
    WriteFile (okRemote "") "hello" "/f" "0644" true =
      WriteFileShell (okRemote "") "hello" "/f" ∧
    WriteFile (okRemote "") "hello" "/f" "0644" true =
      run (okRemote "") ("cat /dev/stdin | sudo tee " ++ "/f") ∧
    WriteFile (okRemote "") "hello" "/f" "0644" false =
      ((okRemote "").scpCopy "hello" "/f" "0644").map GoError.plain :=
  ⟨(writeFile_sudo_ignores_permissions (okRemote "") "hello" "/f" "0644" "0777").1,
   (writeFile_sudo_ignores_permissions (okRemote "") "hello" "/f" "0644" "0777").2.1,
   (writeFile_sudo_ignores_permissions (okRemote "") "hello" "/f" "0644"
      "0777").2.2.1 rfl rfl,
   (writeFile_sudo_ignores_permissions (okRemote "") "hello" "/f" "0644"
      "0777").2.2.2 rfl⟩

/-- C6: `FileExists` issues `test -f <path>` (sudo-prefixed when elevation
is requested) and returns `(true, nil)` when it exits 0; on failure it issues
the confirming `test ! -f <path>` and returns `(false, nil)` when that
negative probe succeeds, and `(false, err)` — with the raw error of the
second probe — when both probes fail. -/
theorem fileExists_probe_semantics (r : Remote) (path : String)
    (useSudo : Bool) (hs : r.newSessionErr = none) :
    (∀ out, r.exec (if useSudo then "sudo " ++ ("test -f " ++ path)
                    else "test -f " ++ path) = .ok out →
      FileExists r path useSudo = (true, none)) ∧
    (∀ e st out2,
      r.exec (if useSudo then "sudo " ++ ("test -f " ++ path)
              else "test -f " ++ path) = .fail e st →
      r.exec (if useSudo then "sudo " ++ ("test ! -f " ++ path)
              else "test ! -f " ++ path) = .ok out2 →
      FileExists r path useSudo = (false, none)) ∧
    (∀ e st e2 st2,
      r.exec (if useSudo then "sudo " ++ ("test -f " ++ path)
              else "test -f " ++ path) = .fail e st →
      r.exec (if useSudo then "sudo " ++ ("test ! -f " ++ path)
              else "test ! -f " ++ path) = .fail e2 st2 →
      FileExists r path useSudo = (false, some (.plain e2))) := by
  refine ⟨?_, ?_, ?_⟩
  · intro out hx
    cases useSudo <;> simp_all [FileExists, run, runRaw, hs]
  · intro e st out2 hx1 hx2
    cases useSudo <;> simp_all [FileExists, run, runRaw, hs]
  · intro e st e2 st2 hx1 hx2
    cases useSudo <;> simp_all [FileExists, run, runRaw, hs]

theorem fileExists_probe_semantics_witness :
    existsProbeRemote.newSessionErr = none ∧
    FileExists existsProbeRemote "/a" false = (false, none) :=
  ⟨rfl,
   (fileExists_probe_semantics existsProbeRemote "/a" false rfl).2.1
     "exit status 1" "" "" rfl rfl⟩

/-- C7 (amended): `ReadFilePermissions` runs `stat -c %a <path>`
(sudo-prefixed as requested), removes the newline characters, and prepends a
single `0` whenever the resulting string has 1 to 3 characters — so a
3-character output such as `644` becomes the 4-digit `0644`, a 4-character
output such as `1755` is unchanged, and 1- or 2-character outputs gain just
one leading zero (they are not padded out to 4 digits). -/
theorem readFilePermissions_single_zero_pad (r : Remote) (path : String)
    (useSudo : Bool) (out : String) (hs : r.newSessionErr = none)
    (hx : r.exec (if useSudo then "sudo " ++ ("stat -c %a " ++ path)
                  else "stat -c %a " ++ path) = .ok out) :
    (1 ≤ (replaceAllNewline out).length → (replaceAllNewline out).length ≤ 3 →
      ReadFilePermissions r path useSudo =
        .ok ("0" ++ replaceAllNewline out)) ∧
    ((replaceAllNewline out).length = 0 ∨ 4 ≤ (replaceAllNewline out).length →
      ReadFilePermissions r path useSudo = .ok (replaceAllNewline out)) := by
  constructor
  · intro hge hle
    have hcond : 0 < (replaceAllNewline out).length ∧
        (replaceAllNewline out).length < 4 := ⟨by omega, by omega⟩
    cases useSudo <;> simp_all [ReadFilePermissions, output, hs]
  · intro hor
    have hcond : ¬(0 < (replaceAllNewline out).length ∧
        (replaceAllNewline out).length < 4) := by omega
    cases useSudo <;> simp_all [ReadFilePermissions, output, hs]

theorem readFilePermissions_single_zero_pad_witness :
    (okRemote "644\n").newSessionErr = none ∧
    (okRemote "644\n").exec "stat -c %a /f" = .ok "644\n" ∧
    ReadFilePermissions (okRemote "644\n") "/f" false = .ok "0644" ∧
    ReadFilePermissions (okRemote "1755\n") "/f" false = .ok "1755" := by
  refine ⟨rfl, rfl, ?_, ?_⟩
  · have h := (readFilePermissions_single_zero_pad (okRemote "644\n") "/f"
      false "644\n" rfl rfl).1 (by decide) (by decide)
    exact h
  · have h := (readFilePermissions_single_zero_pad (okRemote "1755\n") "/f"
      false "1755\n" rfl rfl).2 (Or.inr (by decide))
    exact h

/-- C7 counterexample: The claim says the result is left-padded *to 4
octal digits* whenever the `stat` output has 1 to 3 characters; on the
2-character output `44` the code produces the 3-character `044`, not a
4-digit string. -/
theorem readFilePermissions_pad_counterexample :
    ReadFilePermissions (okRemote "44\n") "/f" false = .ok "044" ∧
    ¬ ("044" : String).length = 4 :=
  ⟨rfl, by decide⟩

/-- C8 (amended): Operations routed through the `run` helper (chmod,
chown, chgrp, shell write, shell delete, the first probe of exists) wrap a
failure in the shared structured `Error` carrying the command text, the
underlying error and the captured stderr; but the operations that call
`Session.Output`/`Session.Run` directly (`StatFile` and its owner/group
wrappers, `ReadFilePermissions`, `ReadFileShell`, and the confirming probe
of `FileExists`) return the raw unwrapped error instead. -/
theorem shell_failure_error_shapes (r : Remote)
    (path permissions owner group char content : String) (useSudo : Bool)
    (e st : String) (hs : r.newSessionErr = none) (hp : r.stdinPipeErr = none)
    (hx : ∀ c, r.exec c = .fail e st) :
    ChmodFile r path permissions useSudo =
      some (.cmdError (if useSudo
        then "sudo " ++ ("chmod " ++ permissions ++ " " ++ path)
        else "chmod " ++ permissions ++ " " ++ path) e st) ∧
    ChownFile r path owner useSudo =
      some (.cmdError (if useSudo
        then "sudo " ++ ("chown " ++ owner ++ " " ++ path)
        else "chown " ++ owner ++ " " ++ path) e st) ∧
    ChgrpFile r path group useSudo =
      some (.cmdError (if useSudo
        then "sudo " ++ ("chgrp " ++ group ++ " " ++ path)
        else "chgrp " ++ group ++ " " ++ path) e st) ∧
    WriteFileShell r content path =
      some (.cmdError ("cat /dev/stdin | sudo tee " ++ path) e st) ∧
    DeleteFileShell r path =
      some (.cmdError ("sudo rm " ++ path) e st) ∧
    FileExists r path useSudo = (false, some (.plain e)) ∧
    StatFile r path char useSudo = .error (.plain e) ∧
    ReadFilePermissions r path useSudo = .error (.plain e) ∧
    ReadFileShell r path = .error (.plain e) := by
  refine ⟨?_, ?_, ?_, ?_, ?_, ?_, ?_, ?_, ?_⟩
  · cases useSudo <;> simp [ChmodFile, run, hs, hx]
  · cases useSudo <;> simp [ChownFile, run, hs, hx]
  · cases useSudo <;> simp [ChgrpFile, run, hs, hx]
  · simp [WriteFileShell, run, hs, hp, hx]
  · simp [DeleteFileShell, run, hs, hx]
  · cases useSudo <;> simp [FileExists, run, runRaw, hs, hx]
  · cases useSudo <;> simp [StatFile, output, hs, hx]
  · cases useSudo <;> simp [ReadFilePermissions, output, hs, hx]
  · simp [ReadFileShell, output, hs, hx]

theorem shell_failure_error_shapes_witness :
    (failRemote "exit status 1" "denied").newSessionErr = none ∧
    ChmodFile (failRemote "exit status 1" "denied") "/x" "0644" true =
      some (.cmdError ("sudo " ++ ("chmod " ++ "0644" ++ " " ++ "/x"))
        "exit status 1" "denied") ∧
    StatFile (failRemote "exit status 1" "denied") "/x" "u" false =
      .error (.plain "exit status 1") :=
  ⟨rfl,
   (shell_failure_error_shapes (failRemote "exit status 1" "denied")
      "/x" "0644" "0" "0" "u" "c" true "exit status 1" "denied"
      rfl rfl (fun _ => rfl)).1,
   (shell_failure_error_shapes (failRemote "exit status 1" "denied")
      "/x" "0644" "0" "0" "u" "c" false "exit status 1" "denied"
      rfl rfl (fun _ => rfl)).2.2.2.2.2.2.1⟩

/-- C8 counterexample: `StatFile` is a shell-based file operation, yet on
failure it returns the raw `Session.Output` error — not the shared structured
failure type carrying the command text and the captured stderr. -/
theorem statFile_error_not_structured_counterexample :
    StatFile (failRemote "exit status 1" "denied") "/x" "u" false =
      .error (.plain "exit status 1") ∧
    isStructuredError (.plain "exit status 1") = false :=
  ⟨rfl, rfl⟩

/-- C5 (amended): `NewRemoteProxyClient` dials the proxy first, then opens
a tunnel through the proxy connection to the target host, then performs the
SSH handshake over that tunnel with the target configuration; a failure at
any stage fails the whole call.  The two dial stages share one identical
connection-error wrapper (so a proxy-dial failure is not distinguishable from
a target-tunnel failure by the returned value), while a handshake failure is
returned unwrapped. -/
theorem proxy_connect_stage_semantics (w : SSHWorld) (host proxyHost : String)
    (clientConfig proxyClientConfig : Nat) :
    (∀ e, w.sshDial proxyHost proxyClientConfig = .error e →
      NewRemoteProxyClient w host clientConfig proxyHost proxyClientConfig =
        .error (.plain (connectionErrMsg e))) ∧
    (∀ pc e, w.sshDial proxyHost proxyClientConfig = .ok pc →
      w.proxyClientDial pc host = .error e →
      NewRemoteProxyClient w host clientConfig proxyHost proxyClientConfig =
        .error (.plain (connectionErrMsg e))) ∧
    (∀ pc conn e, w.sshDial proxyHost proxyClientConfig = .ok pc →
      w.proxyClientDial pc host = .ok conn →
      w.newClientConn conn host clientConfig = .error e →
      NewRemoteProxyClient w host clientConfig proxyHost proxyClientConfig =
        .error (.plain e)) ∧
    (∀ pc conn c, w.sshDial proxyHost proxyClientConfig = .ok pc →
      w.proxyClientDial pc host = .ok conn →
      w.newClientConn conn host clientConfig = .ok c →
      NewRemoteProxyClient w host clientConfig proxyHost proxyClientConfig =
        .ok ⟨c⟩) := by
  refine ⟨?_, ?_, ?_, ?_⟩
  · intro e h1
    simp [NewRemoteProxyClient, h1]
  · intro pc e h1 h2
    simp [NewRemoteProxyClient, h1, h2]
  · intro pc conn e h1 h2 h3
    simp [NewRemoteProxyClient, h1, h2, h3]
  · intro pc conn c h1 h2 h3
    simp [NewRemoteProxyClient, h1, h2, h3]

theorem proxy_connect_stage_semantics_witness :
    proxyFailWorld.sshDial "p:2222" 1 = .error "no route" ∧
    NewRemoteProxyClient proxyFailWorld "h:22" 0 "p:2222" 1 =
      .error (.plain (connectionErrMsg "no route")) :=
  ⟨rfl,
   (proxy_connect_stage_semantics proxyFailWorld "h:22" "p:2222" 0 1).1
     "no route" rfl⟩

/-- C5 counterexample: A proxy-stage failure is *not* distinguishable from
a target-stage failure: a failing proxy dial and a failing tunnel dial to the
target produce exactly the same returned value. -/
theorem proxy_vs_target_failure_indistinguishable_counterexample :
    NewRemoteProxyClient proxyFailWorld "h:22" 0 "p:2222" 1 =
      NewRemoteProxyClient tunnelFailWorld "h:22" 0 "p:2222" 1 ∧
    NewRemoteProxyClient proxyFailWorld "h:22" 0 "p:2222" 1 =
      .error (.plain (connectionErrMsg "no route")) :=
  ⟨rfl, rfl⟩

theorem toDigitsRevGo_spec (fuel : Nat) : ∀ n, n ≤ fuel →
    ofDigitsRev (toDigitsRevGo fuel n) = n ∧
    (∀ d ∈ toDigitsRevGo fuel n, d < 10) ∧ toDigitsRevGo fuel n ≠ [] := by
  induction fuel with
  | zero =>
    intro n hn
    have hn0 : n = 0 := by omega
    subst hn0
    refine ⟨by simp [toDigitsRevGo, ofDigitsRev], ?_, by simp [toDigitsRevGo]⟩
    intro d hd
    simp [toDigitsRevGo] at hd
    omega
  | succ fuel ih =>
    intro n hn
    by_cases h : n < 10
    · refine ⟨by simp [toDigitsRevGo, h, ofDigitsRev], ?_,
        by simp [toDigitsRevGo, h]⟩
      intro d hd
      simp [toDigitsRevGo, h] at hd
      omega
    · have hdiv : n / 10 ≤ fuel := by
        have hlt : n / 10 < n := Nat.div_lt_self (by omega) (by omega)
        omega
      obtain ⟨ih1, ih2, ih3⟩ := ih (n / 10) hdiv
      refine ⟨?_, ?_, by simp [toDigitsRevGo, h]⟩
      · have h2 : ofDigitsRev ((n % 10) :: toDigitsRevGo fuel (n / 10)) =
            n % 10 + 10 * (n / 10) := by simp [ofDigitsRev, ih1]
        simp only [toDigitsRevGo, if_neg h]
        rw [h2]
        omega
      · intro d hd
        simp only [toDigitsRevGo, if_neg h, List.mem_cons] at hd
        rcases hd with hd | hd
        · subst hd
          exact Nat.mod_lt _ (by omega)
        · exact ih2 d hd

theorem ofDigitsRev_toDigitsRev (n : Nat) :
    ofDigitsRev (toDigitsRev n) = n :=
  (toDigitsRevGo_spec n n (Nat.le_refl n)).1

theorem toDigitsRev_lt_ten (n : Nat) : ∀ d ∈ toDigitsRev n, d < 10 :=
  (toDigitsRevGo_spec n n (Nat.le_refl n)).2.1

theorem toDigitsRev_ne_nil (n : Nat) : toDigitsRev n ≠ [] :=
  (toDigitsRevGo_spec n n (Nat.le_refl n)).2.2

theorem digitChar_inj : ∀ a, a < 10 → ∀ b, b < 10 →
    digitChar a = digitChar b → a = b := by decide

theorem digitChar_ne_colon : ∀ d, d < 10 → digitChar d ≠ ':' := by decide

theorem map_digitChar_inj : ∀ (xs ys : List Nat), (∀ d ∈ xs, d < 10) →
    (∀ d ∈ ys, d < 10) → xs.map digitChar = ys.map digitChar → xs = ys := by
  intro xs
  induction xs with
  | nil =>
    intro ys _ _ h
    cases ys with
    | nil => rfl
    | cons y t => simp at h
  | cons x t ih =>
    intro ys hx hy h
    cases ys with
    | nil => simp at h
    | cons y t2 =>
      simp only [List.map_cons, List.cons.injEq] at h
      have hxy : x = y :=
        digitChar_inj x (hx x (by simp)) y (hy y (by simp)) h.1
      have ht : t = t2 := ih t2 (fun d hd => hx d (by simp [hd]))
        (fun d hd => hy d (by simp [hd])) h.2
      rw [hxy, ht]

theorem itoa_inj (m n : Nat) (h : itoa m = itoa n) : m = n := by
  have hdata : (toDigitsRev m).reverse.map digitChar =
      (toDigitsRev n).reverse.map digitChar := congrArg String.data h
  have hrev : (toDigitsRev m).reverse = (toDigitsRev n).reverse :=
    map_digitChar_inj _ _
      (fun d hd => toDigitsRev_lt_ten m d (List.mem_reverse.mp hd))
      (fun d hd => toDigitsRev_lt_ten n d (List.mem_reverse.mp hd)) hdata
  have hdig : toDigitsRev m = toDigitsRev n := List.reverse_injective hrev
  have := congrArg ofDigitsRev hdig
  rwa [ofDigitsRev_toDigitsRev, ofDigitsRev_toDigitsRev] at this

theorem itoa_ne_empty (n : Nat) : itoa n ≠ "" := by
  intro h
  have hdata : (toDigitsRev n).reverse.map digitChar = [] := congrArg String.data h
  have : toDigitsRev n = [] := by
    cases hrev : toDigitsRev n with
    | nil => rfl
    | cons d t => simp [hrev] at hdata
  exact toDigitsRev_ne_nil n this

theorem itoa_noColon (n : Nat) : noColon (itoa n) := by
  intro c hc
  have hc2 : c ∈ (toDigitsRev n).reverse.map digitChar := hc
  obtain ⟨d, hd, hdc⟩ := List.mem_map.mp hc2
  rw [← hdc]
  exact digitChar_ne_colon d (toDigitsRev_lt_ten n d (List.mem_reverse.mp hd))

theorem formatBool_inj (a b : Bool) (h : formatBool a = formatBool b) :
    a = b := by
  cases a <;> cases b <;> first | rfl | (simp [formatBool] at h)

theorem resourceStringWithDefault_empty (s : String) :
    resourceStringWithDefault s "" = s := by
  by_cases h : s = "" <;> simp [resourceStringWithDefault, h]

theorem resourceIntWithDefault_inj (m n : Nat)
    (h : resourceIntWithDefault m "" = resourceIntWithDefault n "") :
    m = n := by
  by_cases hm : m = 0 <;> by_cases hn : n = 0 <;>
    simp [resourceIntWithDefault, hm, hn] at h
  · omega
  · exact absurd h.symm (itoa_ne_empty n)
  · exact absurd h (itoa_ne_empty m)
  · exact itoa_inj m n h

theorem resourceBoolWithDefault_inj (a b : Bool)
    (h : resourceBoolWithDefault a "" = resourceBoolWithDefault b "") :
    a = b := by
  cases a <;> cases b <;> first | rfl | (simp [resourceBoolWithDefault, formatBool] at h)

theorem noColon_resourceIntWithDefault (n : Nat) :
    noColon (resourceIntWithDefault n "") := by
  by_cases h : n = 0
  · simp [resourceIntWithDefault, h]
    intro c hc
    simp at hc
  · simpa [resourceIntWithDefault, h] using itoa_noColon n

theorem noColon_formatBool (b : Bool) : noColon (formatBool b) := by
  cases b <;> decide

theorem noColon_resourceBoolWithDefault (b : Bool) :
    noColon (resourceBoolWithDefault b "") := by
  cases b <;> decide

theorem sepData : ("::" : String).data = [':', ':'] := rfl

/-- Splitting at the first separator: two colon-free heads followed by the
two-colon separator determine each other. -/
theorem splitSep : ∀ (a₁ a₂ r₁ r₂ : List Char),
    (∀ c ∈ a₁, c ≠ ':') → (∀ c ∈ a₂, c ≠ ':') →
    a₁ ++ ':' :: ':' :: r₁ = a₂ ++ ':' :: ':' :: r₂ →
    a₁ = a₂ ∧ r₁ = r₂ := by
  intro a₁
  induction a₁ with
  | nil =>
    intro a₂ r₁ r₂ h1 h2 heq
    cases a₂ with
    | nil => exact ⟨rfl, by simpa using heq⟩
    | cons c t =>
      simp only [List.nil_append, List.cons_append, List.cons.injEq] at heq
      exact absurd heq.1.symm (h2 c (by simp))
  | cons c₁ t₁ ih =>
    intro a₂ r₁ r₂ h1 h2 heq
    cases a₂ with
    | nil =>
      simp only [List.nil_append, List.cons_append, List.cons.injEq] at heq
      exact absurd heq.1 (h1 c₁ (by simp))
    | cons c₂ t₂ =>
      simp only [List.cons_append, List.cons.injEq] at heq
      obtain ⟨hc, ht⟩ := heq
      obtain ⟨ht2, hr⟩ := ih t₂ r₁ r₂
        (fun c hcm => h1 c (List.mem_cons_of_mem _ hcm))
        (fun c hcm => h2 c (List.mem_cons_of_mem _ hcm)) ht
      exact ⟨by rw [hc, ht2], hr⟩

/-- The join with separator `::` is injective on lists of equal length
whose elements contain no colon. -/
theorem joinSep_inj : ∀ (l₁ l₂ : List String), l₁.length = l₂.length →
    (∀ s ∈ l₁, noColon s) → (∀ s ∈ l₂, noColon s) →
    joinSep l₁ = joinSep l₂ → l₁ = l₂
  | [], [], _, _, _, _ => rfl
  | [], _ :: _, hlen, _, _, _ => by simp at hlen
  | _ :: _, [], hlen, _, _, _ => by simp at hlen
  | [s], [t], _, _, _, heq => by
    have : s = t := heq
    rw [this]
  | [s], t₁ :: t₂ :: ts, hlen, _, _, _ => by simp at hlen
  | s₁ :: s₂ :: ss, [t], hlen, _, _, _ => by simp at hlen
  | s₁ :: s₂ :: ss, t₁ :: t₂ :: ts, hlen, h1, h2, heq => by
    have hd : s₁.data ++ ':' :: ':' :: (joinSep (s₂ :: ss)).data =
        t₁.data ++ ':' :: ':' :: (joinSep (t₂ :: ts)).data := by
      have hstep : (joinSep (s₁ :: s₂ :: ss)).data =
          s₁.data ++ ':' :: ':' :: (joinSep (s₂ :: ss)).data := by
        show (s₁ ++ "::" ++ joinSep (s₂ :: ss)).data = _
        simp [String.data_append, sepData]
      have hstep2 : (joinSep (t₁ :: t₂ :: ts)).data =
          t₁.data ++ ':' :: ':' :: (joinSep (t₂ :: ts)).data := by
        show (t₁ ++ "::" ++ joinSep (t₂ :: ts)).data = _
        simp [String.data_append, sepData]
      rw [← hstep, ← hstep2, heq]
    obtain ⟨hhead, htail⟩ := splitSep s₁.data t₁.data _ _
      (h1 s₁ (by simp)) (h2 t₁ (by simp)) hd
    have hs : s₁ = t₁ := String.ext hhead
    have hjoin : joinSep (s₂ :: ss) = joinSep (t₂ :: ts) := String.ext htail
    have hrest : s₂ :: ss = t₂ :: ts :=
      joinSep_inj (s₂ :: ss) (t₂ :: ts) (by simpa using hlen)
        (fun s hs2 => h1 s (List.mem_cons_of_mem _ hs2))
        (fun s hs2 => h2 s (List.mem_cons_of_mem _ hs2)) hjoin
    rw [hs, hrest]

theorem resourceStringWithDefault_inj (s t : String)
    (h : resourceStringWithDefault s "" = resourceStringWithDefault t "") :
    s = t := by
  rwa [resourceStringWithDefault_empty, resourceStringWithDefault_empty] at h

theorem noColon_resourceStringWithDefault (s : String) (h : noColon s) :
    noColon (resourceStringWithDefault s "") := by
  rwa [resourceStringWithDefault_empty]

/-- C2 (amended): Over configurations whose string fields contain no colon
character, two connection configurations produce the same identity string iff
host, user, port, password, private_key, private_key_path, the agent flag,
and the proxy host, user, port, password, private_key, private_key_path and
agent flag are pairwise equal.  `private_key_env_var` (and its proxy
equivalent) is *not* part of the identity. -/
theorem connection_hash_iff (d1 d2 : ConnData)
    (ha1 : noColon d1.host) (ha2 : noColon d1.user)
    (ha3 : noColon d1.password) (ha4 : noColon d1.private_key)
    (ha5 : noColon d1.private_key_path) (ha6 : noColon d1.proxy_host)
    (ha7 : noColon d1.proxy_user) (ha8 : noColon d1.proxy_password)
    (ha9 : noColon d1.proxy_private_key)
    (ha10 : noColon d1.proxy_private_key_path)
    (hb1 : noColon d2.host) (hb2 : noColon d2.user)
    (hb3 : noColon d2.password) (hb4 : noColon d2.private_key)
    (hb5 : noColon d2.private_key_path) (hb6 : noColon d2.proxy_host)
    (hb7 : noColon d2.proxy_user) (hb8 : noColon d2.proxy_password)
    (hb9 : noColon d2.proxy_private_key)
    (hb10 : noColon d2.proxy_private_key_path) :
    resourceConnectionHash d1 = resourceConnectionHash d2 ↔
      (d1.host = d2.host ∧ d1.user = d2.user ∧ d1.port = d2.port ∧
       d1.password = d2.password ∧ d1.private_key = d2.private_key ∧
       d1.private_key_path = d2.private_key_path ∧ d1.agent = d2.agent ∧
       d1.proxy_host = d2.proxy_host ∧ d1.proxy_user = d2.proxy_user ∧
       d1.proxy_port = d2.proxy_port ∧
       d1.proxy_password = d2.proxy_password ∧
       d1.proxy_private_key = d2.proxy_private_key ∧
       d1.proxy_private_key_path = d2.proxy_private_key_path ∧
       d1.proxy_agent = d2.proxy_agent) := by
  constructor
  · intro h
    have hnc1 : ∀ s ∈ [d1.host, d1.user, itoa d1.port,
        resourceStringWithDefault d1.password "",
        resourceStringWithDefault d1.private_key "",
        resourceStringWithDefault d1.private_key_path "",
        formatBool d1.agent,
        resourceStringWithDefault d1.proxy_host "",
        resourceStringWithDefault d1.proxy_user "",
        resourceIntWithDefault d1.proxy_port "",
        resourceStringWithDefault d1.proxy_password "",
        resourceStringWithDefault d1.proxy_private_key "",
        resourceStringWithDefault d1.proxy_private_key_path "",
        resourceBoolWithDefault d1.proxy_agent ""], noColon s := by
      simp only [List.forall_mem_cons]
      exact ⟨ha1, ha2, itoa_noColon _,
        noColon_resourceStringWithDefault _ ha3,
        noColon_resourceStringWithDefault _ ha4,
        noColon_resourceStringWithDefault _ ha5,
        noColon_formatBool _,
        noColon_resourceStringWithDefault _ ha6,
        noColon_resourceStringWithDefault _ ha7,
        noColon_resourceIntWithDefault _,
        noColon_resourceStringWithDefault _ ha8,
        noColon_resourceStringWithDefault _ ha9,
        noColon_resourceStringWithDefault _ ha10,
        noColon_resourceBoolWithDefault _, by simp⟩
    have hnc2 : ∀ s ∈ [d2.host, d2.user, itoa d2.port,
        resourceStringWithDefault d2.password "",
        resourceStringWithDefault d2.private_key "",
        resourceStringWithDefault d2.private_key_path "",
        formatBool d2.agent,
        resourceStringWithDefault d2.proxy_host "",
        resourceStringWithDefault d2.proxy_user "",
        resourceIntWithDefault d2.proxy_port "",
        resourceStringWithDefault d2.proxy_password "",
        resourceStringWithDefault d2.proxy_private_key "",
        resourceStringWithDefault d2.proxy_private_key_path "",
        resourceBoolWithDefault d2.proxy_agent ""], noColon s := by
      simp only [List.forall_mem_cons]
      exact ⟨hb1, hb2, itoa_noColon _,
        noColon_resourceStringWithDefault _ hb3,
        noColon_resourceStringWithDefault _ hb4,
        noColon_resourceStringWithDefault _ hb5,
        noColon_formatBool _,
        noColon_resourceStringWithDefault _ hb6,
        noColon_resourceStringWithDefault _ hb7,
        noColon_resourceIntWithDefault _,
        noColon_resourceStringWithDefault _ hb8,
        noColon_resourceStringWithDefault _ hb9,
        noColon_resourceStringWithDefault _ hb10,
        noColon_resourceBoolWithDefault _, by simp⟩
    have hlist := joinSep_inj _ _ (by rfl) hnc1 hnc2 h
    simp only [List.cons.injEq, and_true] at hlist
    obtain ⟨e1, e2, e3, e4, e5, e6, e7, e8, e9, e10, e11, e12, e13, e14⟩ :=
      hlist
    exact ⟨e1, e2, itoa_inj _ _ e3, resourceStringWithDefault_inj _ _ e4,
      resourceStringWithDefault_inj _ _ e5,
      resourceStringWithDefault_inj _ _ e6, formatBool_inj _ _ e7,
      resourceStringWithDefault_inj _ _ e8,
      resourceStringWithDefault_inj _ _ e9,
      resourceIntWithDefault_inj _ _ e10,
      resourceStringWithDefault_inj _ _ e11,
      resourceStringWithDefault_inj _ _ e12,
      resourceStringWithDefault_inj _ _ e13,
      resourceBoolWithDefault_inj _ _ e14⟩
  · intro h
    obtain ⟨e1, e2, e3, e4, e5, e6, e7, e8, e9, e10, e11, e12, e13, e14⟩ := h
    unfold resourceConnectionHash
    rw [e1, e2, e3, e4, e5, e6, e7, e8, e9, e10, e11, e12, e13, e14]

/-- C2 counterexample: Two failures of the claimed iff: configurations
differing only in the authentication field `private_key_env_var` hash to the
same identity string (the hash omits that field), and the unescaped `::`
join collides configurations whose host/user fields contain `::` (e.g. IPv6
hosts). -/
theorem connection_hash_counterexample :
    (resourceConnectionHash cfgEnvA = resourceConnectionHash cfgEnvB ∧
      cfgEnvA.private_key_env_var ≠ cfgEnvB.private_key_env_var) ∧
    (resourceConnectionHash cfgColl1 = resourceConnectionHash cfgColl2 ∧
      cfgColl1.host ≠ cfgColl2.host) := by
  refine ⟨⟨rfl, by decide⟩, ⟨by decide, by decide⟩⟩

theorem connection_hash_iff_witness :
    noColon cfgEnvA.host ∧ noColon cfgEnvA.user ∧
    (resourceConnectionHash cfgEnvA = resourceConnectionHash cfgEnvA ↔
      (cfgEnvA.host = cfgEnvA.host ∧ cfgEnvA.user = cfgEnvA.user ∧
       cfgEnvA.port = cfgEnvA.port ∧ cfgEnvA.password = cfgEnvA.password ∧
       cfgEnvA.private_key = cfgEnvA.private_key ∧
       cfgEnvA.private_key_path = cfgEnvA.private_key_path ∧
       cfgEnvA.agent = cfgEnvA.agent ∧
       cfgEnvA.proxy_host = cfgEnvA.proxy_host ∧
       cfgEnvA.proxy_user = cfgEnvA.proxy_user ∧
       cfgEnvA.proxy_port = cfgEnvA.proxy_port ∧
       cfgEnvA.proxy_password = cfgEnvA.proxy_password ∧
       cfgEnvA.proxy_private_key = cfgEnvA.proxy_private_key ∧
       cfgEnvA.proxy_private_key_path = cfgEnvA.proxy_private_key_path ∧
       cfgEnvA.proxy_agent = cfgEnvA.proxy_agent)) :=
  ⟨by decide, by decide,
   connection_hash_iff cfgEnvA cfgEnvA (by decide) (by decide) (by decide)
     (by decide) (by decide) (by decide) (by decide) (by decide) (by decide)
     (by decide) (by decide) (by decide) (by decide) (by decide) (by decide)
     (by decide) (by decide) (by decide) (by decide) (by decide)⟩

end RemoteProvider
